import Mathlib

/-!
Verification of the identity-handle layer (`src/libgssapi/src/name.rs`) of
libgssapi.  The native GSSAPI library is external to the repository; every
native entry point is modelled as an abstract oracle (`GssLib`) returning the
two status words and the values written to its output parameters, and the Rust
wrappers are translated over that oracle.  The repository modules `error.rs`,
`util.rs` and `oid.rs` are not among the reviewed sources; their small
interfaces (`Error`, `MajorFlags`, `Buf`, `BufRef`, `Oid`) are modelled from
the spec, marked `Modelled from the spec:` below.
-/

namespace Gssapi

/-- Native handle references are modelled as natural numbers; `0` is the null
(`GSS_C_NO_NAME` / `ptr::null_mut`) sentinel. -/
abbrev NameRef := Nat

/-- Byte sequences crossing the native boundary. -/
abbrev Bytes := List Nat

/-- `GSS_S_COMPLETE`: the all-zero major status word denoting success
(from the libgssapi-sys bindings of the native header). -/
def GSS_S_COMPLETE : Nat := 0

/-- Result of one native call: the returned major status word, the minor
status word written through the first output parameter, and the values the
call left in its remaining output parameters. -/
structure GssResult (α : Type) where
  major : Nat
  minor : Nat
  out : α

/-- Abstract model of the native GSSAPI library: one field per native entry
point used by `name.rs`, each mapping the inputs of a call to a `GssResult`
holding the status words and the final values of the output parameters.
`gss_compare_name` additionally receives the initial value of its `c_int`
equality output parameter, because the Rust caller initialises that local to
`0` before the call and reads it afterwards. -/
structure GssLib where
  gss_import_name : Bytes → Nat → GssResult NameRef
  gss_canonicalize_name : NameRef → Nat → GssResult NameRef
  gss_export_name : NameRef → GssResult Bytes
  gss_display_name : NameRef → GssResult (Bytes × Nat)
  gss_duplicate_name : NameRef → GssResult NameRef
  gss_compare_name : NameRef → NameRef → Int → GssResult Int
  gss_release_name : NameRef → GssResult Unit
  gss_localname : NameRef → Nat → GssResult Bytes

/-- Modelled from the spec: `error.rs` is not among the reviewed sources.
`MajorFlags` is the bit-flag set over the raw major status word; the bitflags
operation `from_bits_retain` retains every bit of its argument, defined bits
or not. -/
structure MajorFlags where
  bits : Nat

/-- Modelled from the spec: `MajorFlags::from_bits_retain` keeps all bits of
the raw major word. -/
def MajorFlags.from_bits_retain (b : Nat) : MajorFlags := ⟨b⟩

/-- Modelled from the spec: the structured `Error` of `error.rs` — a decoded
bit-flag set for the major status and the opaque mechanism-specific minor
status.  It carries no native handle reference. -/
structure Error where
  major : MajorFlags
  minor : Nat

/-- Modelled from the spec: `util.rs` is not among the reviewed sources.  An
owned native buffer (`Buf`) is observed through `AsBytes` only, so it is
modelled as its byte contents. -/
abbrev Buf := Bytes

/-- Modelled from the spec: `oid.rs` is not among the reviewed sources.  An
`Oid` is an immutable reference to a native identifier structure; `to_c`
exposes the underlying native `gss_OID` pointer value. -/
structure Oid where
  ref : Nat

/-- Modelled from the spec: `Oid::to_c` returns the native pointer value. -/
def Oid.to_c (o : Oid) : Nat := o.ref

/-- Modelled from the spec: `NO_OID` is the "no identifier" null sentinel
(`GSS_C_NO_OID`). -/
def NO_OID : Nat := 0

/-- The value passed for an optional `&Oid` argument: `ptr::null_mut` (that
is `0`) when absent, `kind.to_c()` when present — the inline `match` of
`Name::new` and `Name::canonicalize`. -/
def oidPtr : Option Oid → Nat
  | none => 0
  | some k => k.to_c

/-- `pub struct Name(gss_name_t)` — the identity handle wrapping a single
opaque native reference. -/
structure Name where
  ptr : NameRef

/-- `Drop for Name`: the destructor checks `!self.0.is_null()`; when the
reference is non-null it calls `gss_release_name` once, binding the returned
major word and the minor word to discarded locals (`_major`, `_minor`); when
the reference is null it does nothing.  The translation returns the trace of
references passed to `gss_release_name`; the discarded two-word status does
not flow into the result. -/
def Name.drop (lib : GssLib) (n : Name) : List NameRef :=
  if n.ptr ≠ 0 then
    let _ := lib.gss_release_name n.ptr
    [n.ptr]
  else []

/-- `Name::new`: wraps the input bytes in a `BufRef` (a borrowed view, passed
through as the bytes themselves), calls `gss_import_name` with the optional
kind OID (null when absent), and decodes `(major, minor)`: `Ok(Name(name))`
when `major == GSS_S_COMPLETE`, otherwise
`Err(Error{ major: from_bits_retain(major), minor })`. -/
def Name.new (lib : GssLib) (s : Bytes) (kind : Option Oid) : Except Error Name :=
  let r := lib.gss_import_name s (oidPtr kind)
  if r.major = GSS_S_COMPLETE then Except.ok ⟨r.out⟩
  else Except.error ⟨MajorFlags.from_bits_retain r.major, r.minor⟩

/-- `Name::canonicalize`: takes `&self`; calls `gss_canonicalize_name` on the
reference of the receiver with the optional mechanism OID and decodes the status
words as in `Name::new`.  The shared receiver is threaded explicitly (first
component of the result) so that the frame effect on it is expressible; the
body contains no assignment to `self.0`, so the translation returns the
receiver unchanged. -/
def Name.canonicalize (lib : GssLib) (self : Name) (mech : Option Oid) :
    Name × Except Error Name :=
  let r := lib.gss_canonicalize_name self.ptr (oidPtr mech)
  (self,
    if r.major = GSS_S_COMPLETE then Except.ok ⟨r.out⟩
    else Except.error ⟨MajorFlags.from_bits_retain r.major, r.minor⟩)

/-- `Name::export`: calls `gss_export_name` on the reference of the receiver with
an empty owned output buffer and decodes the status words uniformly. -/
def Name.export (lib : GssLib) (self : Name) : Except Error Buf :=
  let r := lib.gss_export_name self.ptr
  if r.major = GSS_S_COMPLETE then Except.ok r.out
  else Except.error ⟨MajorFlags.from_bits_retain r.major, r.minor⟩

/-- `Name::display_name`: calls `gss_display_name`, which fills the output
buffer and an output OID; the OID (second output component) is discarded and
the buffer returned on success; status words decoded uniformly. -/
def Name.display_name (lib : GssLib) (self : Name) : Except Error Buf :=
  let r := lib.gss_display_name self.ptr
  if r.major = GSS_S_COMPLETE then Except.ok r.out.1
  else Except.error ⟨MajorFlags.from_bits_retain r.major, r.minor⟩

/-- `Name::local_name`: calls `gss_localname` with
`mechs.map_or(NO_OID, |o| o.to_c())` and decodes the status words
uniformly. -/
def Name.local_name (lib : GssLib) (self : Name) (mechs : Option Oid) :
    Except Error Buf :=
  let r := lib.gss_localname self.ptr (mechs.elim NO_OID (fun o => o.to_c))
  if r.major = GSS_S_COMPLETE then Except.ok r.out
  else Except.error ⟨MajorFlags.from_bits_retain r.major, r.minor⟩

/-- `Name::duplicate`: calls `gss_duplicate_name` and decodes the status
words uniformly, wrapping the fresh output reference on success. -/
def Name.duplicate (lib : GssLib) (self : Name) : Except Error Name :=
  let r := lib.gss_duplicate_name self.ptr
  if r.major = GSS_S_COMPLETE then Except.ok ⟨r.out⟩
  else Except.error ⟨MajorFlags.from_bits_retain r.major, r.minor⟩

/-- `PartialEq for Name`: initialises the `c_int` equality flag to `0`, calls
`gss_compare_name`, ignores the returned major word and returns `eq == 1`. -/
def Name.eq (lib : GssLib) (self other : Name) : Bool :=
  let r := lib.gss_compare_name self.ptr other.ptr 0
  r.out == 1

/-- A strict UTF-8 continuation byte: `0x80 ..= 0xBF`. -/
def isCont (c : Nat) : Bool := decide (0x80 ≤ c ∧ c ≤ 0xBF)

/-- Admissible second byte of a three-byte UTF-8 sequence headed by `b`
(excludes overlong encodings and surrogates, as the Rust `str::from_utf8`
does). -/
def utf8Mid3 (b c1 : Nat) : Bool :=
  if b = 0xE0 then decide (0xA0 ≤ c1 ∧ c1 ≤ 0xBF)
  else if b = 0xED then decide (0x80 ≤ c1 ∧ c1 ≤ 0x9F)
  else isCont c1

/-- Admissible second byte of a four-byte UTF-8 sequence headed by `b`
(excludes overlong encodings and code points above `U+10FFFF`). -/
def utf8Mid4 (b c1 : Nat) : Bool :=
  if b = 0xF0 then decide (0x90 ≤ c1 ∧ c1 ≤ 0xBF)
  else if b = 0xF4 then decide (0x80 ≤ c1 ∧ c1 ≤ 0x8F)
  else isCont c1

/-- Strict UTF-8 decoding of a byte sequence to its scalar values, `none` on
any ill-formed input — the validation performed by the Rust
`std::str::from_utf8`. -/
def utf8Decode : Bytes → Option (List Nat)
  | [] => some []
  | b :: l =>
    if b ≤ 0x7F then (utf8Decode l).map (fun t => b :: t)
    else if 0xC2 ≤ b ∧ b ≤ 0xDF then
      match l with
      | c1 :: l2 =>
        if isCont c1 then
          (utf8Decode l2).map (fun t => ((b - 0xC0) * 0x40 + (c1 - 0x80)) :: t)
        else none
      | [] => none
    else if 0xE0 ≤ b ∧ b ≤ 0xEF then
      match l with
      | c1 :: c2 :: l2 =>
        if utf8Mid3 b c1 && isCont c2 then
          (utf8Decode l2).map
            (fun t => ((b - 0xE0) * 0x1000 + (c1 - 0x80) * 0x40 + (c2 - 0x80)) :: t)
        else none
      | _ => none
    else if 0xF0 ≤ b ∧ b ≤ 0xF4 then
      match l with
      | c1 :: c2 :: c3 :: l2 =>
        if utf8Mid4 b c1 && isCont c2 && isCont c3 then
          (utf8Decode l2).map
            (fun t =>
              ((b - 0xF0) * 0x40000 + (c1 - 0x80) * 0x1000 +
                (c2 - 0x80) * 0x40 + (c3 - 0x80)) :: t)
        else none
      | _ => none
    else none
termination_by l => l.length
decreasing_by all_goals (simp only [List.length_cons]; omega)

/-- Model of `std::str::from_utf8`: `some` of the decoded text exactly when
the bytes are well-formed strict UTF-8, `none` otherwise. -/
def from_utf8 (bs : Bytes) : Option String :=
  (utf8Decode bs).map (fun cps => String.mk (cps.map Char.ofNat))

/-- `fmt::Debug for Name`: tries `display_name`; on success tries
`str::from_utf8`; writes the decoded text, or the fixed placeholder
the fixed cannot-be-decoded placeholder when the bytes are not valid UTF-8,
or the fixed cannot-be-displayed placeholder when `display_name` failed.  The
translation returns the text written to the formatter: the only failure of
the Rust `fmt` method is a formatter-side write failure, which is outside
the model — no GSSAPI error ever escapes. -/
def Name.debugFmt (lib : GssLib) (self : Name) : String :=
  match Name.display_name lib self with
  | Except.ok buf =>
    match from_utf8 buf with
    | some s => s
    | none => "<name can\x27t be decoded>"
  | Except.error _ => "<name can\x27t be displayed>"

/-- `fmt::Display for Name`: the body is exactly `fmt::Debug::fmt(self, f)` —
full delegation to the `Debug` implementation. -/
def Name.displayFmt (lib : GssLib) (self : Name) : String :=
  Name.debugFmt lib self

/-- Modelled from the spec: the Status/Error Decoder component —
`Decode(major, minor)` treats the all-zero major value as success and turns
any non-zero major word into `DecodedError{ major: bit-flag set,
minor: opaque integer }`.  Stated from the words of the spec to be compared with
each operation of the source. -/
def decodeStatus {α : Type} (major minor : Nat) (out : α) : Except Error α :=
  if major = GSS_S_COMPLETE then Except.ok out
  else Except.error ⟨MajorFlags.from_bits_retain major, minor⟩

/-- The native references a caller must still release, given the result of
an operation: the reference of the wrapped handle on success, nothing on failure (the
`Error` type carries no reference). -/
def releaseObligations : Except Error Name → List NameRef
  | Except.ok n => [n.ptr]
  | Except.error _ => []

/-- A native reference is canonical under `mech` when it is the successful
output of `gss_canonicalize_name` for that mechanism. -/
def IsCanonicalRef (lib : GssLib) (mech : Option Oid) (r : NameRef) : Prop :=
  ∃ r0, (lib.gss_canonicalize_name r0 (oidPtr mech)).major = GSS_S_COMPLETE ∧
    (lib.gss_canonicalize_name r0 (oidPtr mech)).out = r

/-- Modelled from the spec: native boundary contract — a failed native call
must not store through its output parameters, so a failed `gss_compare_name`
leaves the equality flag of the caller at its initial value. -/
def CompareUntouchedOnFailure (lib : GssLib) : Prop :=
  ∀ a b i, (lib.gss_compare_name a b i).major ≠ GSS_S_COMPLETE →
    (lib.gss_compare_name a b i).out = i

/-- Modelled from the spec: native contract behind spec §8.3 — canonicalizing
a reference that is already canonical for `mech` succeeds into a reference
the native comparison reports equal to it. -/
def CanonIdemNative (lib : GssLib) (mech : Option Oid) : Prop :=
  ∀ r, IsCanonicalRef lib mech r →
    (lib.gss_canonicalize_name r (oidPtr mech)).major = GSS_S_COMPLETE →
    (lib.gss_compare_name r (lib.gss_canonicalize_name r (oidPtr mech)).out 0).out = 1

/-- Modelled from the spec: native contract behind spec §8.4 — for two
references canonical under the same mechanism whose exports succeed, the
exported tokens are byte-wise equal exactly when the native comparison
reports the references equal. -/
def ExportCompareNative (lib : GssLib) (mech : Option Oid) : Prop :=
  ∀ r1 r2, IsCanonicalRef lib mech r1 → IsCanonicalRef lib mech r2 →
    (lib.gss_export_name r1).major = GSS_S_COMPLETE →
    (lib.gss_export_name r2).major = GSS_S_COMPLETE →
    ((lib.gss_export_name r1).out = (lib.gss_export_name r2).out ↔
      (lib.gss_compare_name r1 r2 0).out = 1)

/-- Modelled from the spec: native contract behind spec §8.2 — a successful
`gss_duplicate_name` yields a fresh reference, distinct from its source, that
the native comparison reports equal to the source. -/
def DuplicateNative (lib : GssLib) : Prop :=
  ∀ r, (lib.gss_duplicate_name r).major = GSS_S_COMPLETE →
    (lib.gss_compare_name r (lib.gss_duplicate_name r).out 0).out = 1 ∧
    (lib.gss_duplicate_name r).out ≠ r

/-- A concrete oracle for witnesses: every call succeeds; canonicalization
always yields reference `42`; comparison always reports equality; export
always yields the empty token; duplication yields the successor reference. -/
def witLib : GssLib :=
  GssLib.mk (fun _ _ => ⟨0, 0, 42⟩) (fun _ _ => ⟨0, 0, 42⟩)
    (fun _ => ⟨0, 0, []⟩) (fun _ => ⟨0, 0, ([104, 105], 0)⟩)
    (fun r => ⟨0, 0, r + 1⟩) (fun _ _ _ => ⟨0, 0, 1⟩)
    (fun _ => ⟨0, 0, ()⟩) (fun _ _ => ⟨0, 0, []⟩)

/-- A concrete oracle for witnesses: every call fails with major word `1`
and minor word `7`, storing nothing through its output parameters. -/
def failLib : GssLib :=
  GssLib.mk (fun _ _ => ⟨1, 7, 0⟩) (fun _ _ => ⟨1, 7, 0⟩)
    (fun _ => ⟨1, 7, []⟩) (fun _ => ⟨1, 7, ([], 0)⟩)
    (fun _ => ⟨1, 7, 0⟩) (fun _ _ i => ⟨1, 7, i⟩)
    (fun _ => ⟨1, 7, ()⟩) (fun _ _ => ⟨1, 7, []⟩)

/-- Helper: a decoded result is `Ok v` exactly when the major word is the
success sentinel and `v` is the output value of the call. -/
theorem decodeStatus_ok {α : Type} (major minor : Nat) (out v : α) :
    decodeStatus major minor out = Except.ok v ↔
      major = GSS_S_COMPLETE ∧ out = v := by
  unfold decodeStatus
  split <;> simp_all

/-- Helper: a decoded result is `Error e` exactly when the major word is not
the success sentinel and `e` is the decoded pair. -/
theorem decodeStatus_error {α : Type} (major minor : Nat) (out : α) (e : Error) :
    decodeStatus major minor out = Except.error e ↔
      ¬ major = GSS_S_COMPLETE ∧
        Error.mk (MajorFlags.from_bits_retain major) minor = e := by
  unfold decodeStatus
  split <;> simp_all

/-- Helper: unfolding equation for `Name.new`. -/
theorem new_decode (lib : GssLib) (s : Bytes) (kind : Option Oid) :
    Name.new lib s kind =
      decodeStatus (lib.gss_import_name s (oidPtr kind)).major
        (lib.gss_import_name s (oidPtr kind)).minor
        (Name.mk (lib.gss_import_name s (oidPtr kind)).out) := rfl

/-- Helper: unfolding equation for the result of `Name.canonicalize`. -/
theorem canonicalize_decode (lib : GssLib) (self : Name) (mech : Option Oid) :
    (Name.canonicalize lib self mech).2 =
      decodeStatus (lib.gss_canonicalize_name self.ptr (oidPtr mech)).major
        (lib.gss_canonicalize_name self.ptr (oidPtr mech)).minor
        (Name.mk (lib.gss_canonicalize_name self.ptr (oidPtr mech)).out) := rfl

/-- Helper: unfolding equation for `Name.export`. -/
theorem export_decode (lib : GssLib) (self : Name) :
    Name.export lib self =
      decodeStatus (lib.gss_export_name self.ptr).major
        (lib.gss_export_name self.ptr).minor
        (lib.gss_export_name self.ptr).out := rfl

/-- Helper: unfolding equation for `Name.duplicate`. -/
theorem duplicate_decode (lib : GssLib) (self : Name) :
    Name.duplicate lib self =
      decodeStatus (lib.gss_duplicate_name self.ptr).major
        (lib.gss_duplicate_name self.ptr).minor
        (Name.mk (lib.gss_duplicate_name self.ptr).out) := rfl

/-- C1: every operation on the identity handle — `new`, `canonicalize`,
`export`, `display_name`, `local_name`, `duplicate` — equals the uniform
status decoder applied immediately to the result of its native call: `Ok` exactly
when the major word is the all-zero `GSS_S_COMPLETE`, otherwise an `Error`
whose major field is `from_bits_retain` of the major word and whose minor
field is the native minor word. -/
theorem ops_decode_uniform (lib : GssLib) (s : Bytes)
    (kind mech mechs : Option Oid) (n : Name) :
    (Name.new lib s kind =
      (let r := lib.gss_import_name s (oidPtr kind)
       decodeStatus r.major r.minor (Name.mk r.out))) ∧
    ((Name.canonicalize lib n mech).2 =
      (let r := lib.gss_canonicalize_name n.ptr (oidPtr mech)
       decodeStatus r.major r.minor (Name.mk r.out))) ∧
    (Name.export lib n =
      (let r := lib.gss_export_name n.ptr
       decodeStatus r.major r.minor r.out)) ∧
    (Name.display_name lib n =
      (let r := lib.gss_display_name n.ptr
       decodeStatus r.major r.minor r.out.1)) ∧
    (Name.local_name lib n mechs =
      (let r := lib.gss_localname n.ptr (mechs.elim NO_OID (fun o => o.to_c))
       decodeStatus r.major r.minor r.out)) ∧
    (Name.duplicate lib n =
      (let r := lib.gss_duplicate_name n.ptr
       decodeStatus r.major r.minor (Name.mk r.out))) :=
  ⟨rfl, rfl, rfl, rfl, rfl, rfl⟩

/-- C2: the destructor of an identity handle releases nothing when the stored
native reference is the null sentinel, releases exactly that reference once
when it is non-null, and in every case invokes the native release primitive
at most once — never twice on the same reference.  The two-word status of the
release call is discarded: it does not occur in the result of the destructor. -/
theorem drop_no_double_release (lib : GssLib) (n : Name) :
    (n.ptr = 0 → Name.drop lib n = []) ∧
    (n.ptr ≠ 0 → Name.drop lib n = [n.ptr]) ∧
    (Name.drop lib n).length ≤ 1 := by
  refine ⟨fun h => ?_, fun h => ?_, ?_⟩
  · simp [Name.drop, h]
  · simp [Name.drop, h]
  · by_cases h : n.ptr = 0 <;> simp [Name.drop, h]

theorem drop_no_double_release_witness :
    Name.drop witLib ⟨5⟩ = [5] :=
  (drop_no_double_release witLib ⟨5⟩).2.1 (by decide)

/-- C3: the human-readable (Debug) rendering of an identity handle never
propagates a GSSAPI error: when `display_name` fails it writes the fixed
cannot-be-displayed placeholder; when `display_name` succeeds but the
bytes are not valid UTF-8 it writes the fixed placeholder
cannot-be-decoded placeholder; when the bytes are valid UTF-8 it writes the
decoded text.  All paths produce a string. -/
theorem debug_fmt_never_fails (lib : GssLib) (n : Name) :
    (∀ e, Name.display_name lib n = Except.error e →
      Name.debugFmt lib n = "<name can\x27t be displayed>") ∧
    (∀ buf, Name.display_name lib n = Except.ok buf → from_utf8 buf = none →
      Name.debugFmt lib n = "<name can\x27t be decoded>") ∧
    (∀ buf s, Name.display_name lib n = Except.ok buf → from_utf8 buf = some s →
      Name.debugFmt lib n = s) := by
  refine ⟨fun e he => ?_, fun buf hb hu => ?_, fun buf s hb hu => ?_⟩
  · simp [Name.debugFmt, he]
  · simp [Name.debugFmt, hb, hu]
  · simp [Name.debugFmt, hb, hu]

theorem debug_fmt_never_fails_witness :
    Name.debugFmt failLib ⟨3⟩ = "<name can\x27t be displayed>" :=
  (debug_fmt_never_fails failLib ⟨3⟩).1 ⟨⟨1⟩, 7⟩ rfl

/-- C4: equality of two identity handles is the plain boolean `eq == 1` read
from the output flag of the native comparison call, independent of its
major status; under the native boundary contract that a failed call stores
nothing through its output parameters, a failed comparison therefore yields
`false`, never an error. -/
theorem eq_bool_never_error (lib : GssLib) (a b : Name) :
    (Name.eq lib a b = ((lib.gss_compare_name a.ptr b.ptr 0).out == 1)) ∧
    (CompareUntouchedOnFailure lib →
      (lib.gss_compare_name a.ptr b.ptr 0).major ≠ GSS_S_COMPLETE →
      Name.eq lib a b = false) := by
  refine ⟨rfl, fun hc hm => ?_⟩
  have h0 := hc a.ptr b.ptr 0 hm
  simp [Name.eq, h0]

theorem eq_bool_never_error_witness :
    Name.eq failLib ⟨1⟩ ⟨2⟩ = false :=
  (eq_bool_never_error failLib ⟨1⟩ ⟨2⟩).2 (fun _ _ _ _ => rfl) (by decide)

/-- C5: when parsing fails, the returned `Error` has a non-zero major status
word (since `from_bits_retain` keeps every bit of the non-zero major word),
and the failure result retains no identity handle — nothing requires
releasing by the caller. -/
theorem new_failure_no_handle (lib : GssLib) (s : Bytes) (kind : Option Oid) :
    ∀ e, Name.new lib s kind = Except.error e →
      e.major.bits ≠ 0 ∧ releaseObligations (Name.new lib s kind) = [] := by
  intro e he
  rw [new_decode, decodeStatus_error] at he
  obtain ⟨h, he⟩ := he
  constructor
  · rw [← he]
    simpa [MajorFlags.from_bits_retain, GSS_S_COMPLETE] using h
  · rw [new_decode]
    simp [decodeStatus, h, releaseObligations]

theorem new_failure_no_handle_witness :
    (Error.mk (MajorFlags.mk 1) 7).major.bits ≠ 0 ∧
      releaseObligations (Name.new failLib [] none) = [] :=
  new_failure_no_handle failLib [] none ⟨⟨1⟩, 7⟩ rfl

/-- C6: canonicalization leaves the receiver untouched — its stored native
reference is unchanged whether the call succeeds or fails — and on success
the produced handle is a new value wrapping exactly the fresh reference the
native call wrote to its output parameter. -/
theorem canonicalize_frame (lib : GssLib) (self : Name) (mech : Option Oid) :
    (Name.canonicalize lib self mech).1 = self ∧
    (∀ m, (Name.canonicalize lib self mech).2 = Except.ok m →
      m.ptr = (lib.gss_canonicalize_name self.ptr (oidPtr mech)).out) := by
  refine ⟨rfl, fun m hm => ?_⟩
  rw [canonicalize_decode, decodeStatus_ok] at hm
  rw [← hm.2]

theorem canonicalize_frame_witness :
    (Name.canonicalize witLib ⟨3⟩ none).1 = (⟨3⟩ : Name) ∧
      (Name.mk 42).ptr = (witLib.gss_canonicalize_name 3 (oidPtr none)).out :=
  ⟨(canonicalize_frame witLib ⟨3⟩ none).1,
   (canonicalize_frame witLib ⟨3⟩ none).2 ⟨42⟩ rfl⟩

/-- C7: canonicalization is idempotent for a fixed mechanism — under the
native contract that canonicalizing an already-canonical reference yields a
reference comparing equal to it, a handle whose reference is canonical for
`mech` yields, on successful canonicalization with `mech`, a handle the
equality operation reports equal to the input. -/
theorem canonicalize_idempotent (lib : GssLib) (mech : Option Oid) (n : Name)
    (hnat : CanonIdemNative lib mech) (hc : IsCanonicalRef lib mech n.ptr) :
    ∀ m, (Name.canonicalize lib n mech).2 = Except.ok m →
      Name.eq lib n m = true := by
  intro m hm
  rw [canonicalize_decode, decodeStatus_ok] at hm
  have h1 := hnat n.ptr hc hm.1
  rw [← hm.2]
  simp [Name.eq, h1]

theorem canonicalize_idempotent_witness :
    Name.eq witLib ⟨42⟩ ⟨42⟩ = true :=
  canonicalize_idempotent witLib none ⟨42⟩ (fun _ _ _ => rfl) ⟨0, rfl, rfl⟩
    ⟨42⟩ rfl

/-- C8: for two handles whose references are canonical under the same
mechanism and whose exports succeed, the exported byte tokens are equal
exactly when the equality operation reports the handles equal — under the
native contract that export tokens of canonical references agree with the
native comparison. -/
theorem export_compare_consistent (lib : GssLib) (mech : Option Oid)
    (n1 n2 : Name) (hnat : ExportCompareNative lib mech)
    (h1 : IsCanonicalRef lib mech n1.ptr) (h2 : IsCanonicalRef lib mech n2.ptr) :
    ∀ b1 b2, Name.export lib n1 = Except.ok b1 →
      Name.export lib n2 = Except.ok b2 →
      (b1 = b2 ↔ Name.eq lib n1 n2 = true) := by
  intro b1 b2 hb1 hb2
  rw [export_decode, decodeStatus_ok] at hb1 hb2
  have hiff := hnat n1.ptr n2.ptr h1 h2 hb1.1 hb2.1
  rw [← hb1.2, ← hb2.2]
  simpa [Name.eq] using hiff

theorem export_compare_consistent_witness :
    ([] : Bytes) = ([] : Bytes) ↔ Name.eq witLib ⟨42⟩ ⟨42⟩ = true :=
  export_compare_consistent witLib none ⟨42⟩ ⟨42⟩
    (fun _ _ _ _ _ _ => by constructor <;> intro <;> rfl)
    ⟨0, rfl, rfl⟩ ⟨0, rfl, rfl⟩ [] [] rfl rfl

/-- C9: under the native contract that duplication returns a fresh reference
comparing equal to its source, a successful `duplicate` yields a handle the
equality operation reports equal to the source, whose underlying native
reference is distinct from that of the source, so that the destructor of either
handle never releases the reference held by the other. -/
theorem duplicate_equal_fresh (lib : GssLib) (n : Name)
    (hnat : DuplicateNative lib) :
    ∀ d, Name.duplicate lib n = Except.ok d →
      Name.eq lib n d = true ∧ d.ptr ≠ n.ptr ∧
      (∀ x, x ∈ Name.drop lib d → x ∉ Name.drop lib n) := by
  intro d hd
  rw [duplicate_decode, decodeStatus_ok] at hd
  have h1 := hnat n.ptr hd.1
  obtain ⟨hmaj, hdd⟩ := hd
  subst hdd
  refine ⟨by simp [Name.eq, h1.1], h1.2, fun x hx hx2 => ?_⟩
  have hxd : x = (lib.gss_duplicate_name n.ptr).out := by
    by_cases hz : (lib.gss_duplicate_name n.ptr).out = 0 <;>
      simp_all [Name.drop]
  have hxn : x = n.ptr := by
    by_cases hz : n.ptr = 0 <;> simp_all [Name.drop]
  rw [hxd] at hxn
  exact h1.2 hxn

theorem duplicate_equal_fresh_witness :
    Name.eq witLib ⟨5⟩ ⟨6⟩ = true ∧ (Name.mk 6).ptr ≠ (Name.mk 5).ptr ∧
      (∀ x, x ∈ Name.drop witLib ⟨6⟩ → x ∉ Name.drop witLib ⟨5⟩) :=
  duplicate_equal_fresh witLib ⟨5⟩
    (fun r _ => ⟨rfl, Nat.succ_ne_self r⟩) ⟨6⟩ rfl

/-- C10: the Display rendering of an identity handle delegates entirely to
the Debug rendering, so the two entry points produce character-for-character
identical output on every handle — in particular the placeholder-on-failure
behavior is identical for both. -/
theorem display_fmt_eq_debug_fmt (lib : GssLib) (n : Name) :
    Name.displayFmt lib n = Name.debugFmt lib n :=
  rfl

end Gssapi
